import Mathlib

/-!
Verification of the expo-pipeline company-enrichment repository.

The JavaScript modules are shallowly embedded: network fetches (primary API
responses, scraped pages) are inputs to the embedded functions, numbers that
the code treats as exact decimals (confidence weights) are rationals, and
JavaScript objects flattened to CSV are association lists of column name to
cell value.  Function and field names follow the source.
-/

namespace ExpoPipeline

/-! ## JavaScript string and number primitives -/

/-- `isPrefixList p l` : `p` is a prefix of `l` (character lists). -/
def isPrefixList : List Char → List Char → Bool
  | [], _ => true
  | _ :: _, [] => false
  | p :: ps, c :: cs => p == c && isPrefixList ps cs

/-- Substring containment on character lists (needle first). -/
def containsSub (pat : List Char) : List Char → Bool
  | [] => isPrefixList pat []
  | c :: t => isPrefixList pat (c :: t) || containsSub pat t

/-- JavaScript `haystack.includes(needle)`. -/
def jsIncludes (s pat : String) : Bool := containsSub pat.data s.data

/-- JavaScript `String.prototype.toLowerCase` (per-character lowering). -/
def jsToLower (s : String) : String := ⟨s.data.map Char.toLower⟩

/-- `Array.prototype.join(sep)`. -/
def jsJoin (sep : String) : List String → String
  | [] => ""
  | [x] => x
  | x :: y :: xs => x ++ sep ++ jsJoin sep (y :: xs)

/-- Fuel-driven splitter behind `jsSplit`; fuel bounds the scan of `hay`. -/
def jsSplitAux (sep : List Char) : Nat → List Char → List Char → List String
  | 0, cur, hay => [⟨cur ++ hay⟩]
  | Nat.succ f, cur, hay =>
    if !sep.isEmpty && isPrefixList sep hay then
      (⟨cur⟩ : String) :: jsSplitAux sep f [] (hay.drop sep.length)
    else
      match hay with
      | [] => [⟨cur⟩]
      | c :: t => jsSplitAux sep f (cur ++ [c]) t

/-- JavaScript `s.split(sep)` for a non-empty separator. -/
def jsSplit (s sep : String) : List String :=
  if sep.data.isEmpty then [s] else jsSplitAux sep.data (s.data.length + 1) [] s.data

/-- JavaScript `company.employee_count > n` where the field may be absent
    (`undefined > n` and `null > n` are both `false`). -/
def jsGtNum (o : Option Int) (n : Int) : Bool :=
  match o with
  | none => false
  | some k => n < k

/-! ## Company records

The mutable column bag is embedded as a structure of the fields the analyzed
modules read and write; fields a stage has not produced yet are `none`. -/

structure Company where
  name : String
  website : Option String := none
  linkedin_url : Option String := none
  linkedin : Option String := none
  employee_count : Option Int := none
  /-- The `has_funding_data` column as read by the simulators via
      `=== 'true'` string comparison. -/
  has_funding_data : Option String := none
  employee_range : Option String := none
  in_target_range_11_200 : Option Bool := none
  employee_data_source : Option String := none
  deriving DecidableEq, Repr

/-- `company.linkedin_url || company.linkedin`. -/
def Company.linkedinAny (c : Company) : Option String :=
  match c.linkedin_url with
  | some u => some u
  | none => c.linkedin

end ExpoPipeline

namespace ExpoPipeline.Jobs

open ExpoPipeline

/-! ## `job-scraper-fallback.js` -/

/-- Sales-role keyword dictionary from the `JobScraperFallback` constructor. -/
def salesPatterns : List String :=
  ["sales", "account executive", "account manager", "commercial", "ae", "am",
   "business development representative", "bdr", "sdr", "sales development",
   "revenue", "hunter", "closer", "sales rep", "territory manager",
   "inside sales", "outside sales", "field sales", "enterprise sales",
   "vendeur", "vente", "responsable commercial", "chargé commercial"]

/-- Marketing-role keyword dictionary. -/
def marketingPatterns : List String :=
  ["marketing", "growth", "demand gen", "content", "brand", "digital marketing",
   "product marketing", "pmm", "seo", "sem", "social media", "campaign",
   "marketing manager", "marketing director", "brand manager", "content manager",
   "growth marketing", "performance marketing", "martech", "webmarketing"]

/-- Business-development keyword dictionary. -/
def bdPatterns : List String :=
  ["business development", "bd manager", "biz dev", "bizdev", "partnership",
   "strategic partnership", "alliance manager", "channel manager",
   "corporate development", "corp dev", "développement commercial",
   "business development manager", "partner development"]

/-- `matchesRolePattern(text, patterns)`. -/
def matchesRolePattern (text : String) (patterns : List String) : Bool :=
  patterns.any fun pattern => jsIncludes text pattern

/-- Outcome of one scraping tier (`scrapeCareerPage` / `scrapeLinkedInPublic`
    result shape); a tier that threw is its caught `found:false` default. -/
structure TierJobResult where
  found : Bool := false
  titles : List String := []
  hasSales : Bool := false
  hasMarketing : Bool := false
  hasBD : Bool := false
  deriving DecidableEq, Repr

/-- `simulateGoogleResults(company)` — the mock search hits fabricated from
    company attributes when no real search capability is wired in. -/
def simulateGoogleResults (company : Company) : List String :=
  (if jsGtNum company.employee_count 20 then
    [company.name ++ " is hiring new team members"] else []) ++
  (if company.has_funding_data = some "true" then
    ["Join the growing team at " ++ company.name] else [])

/-- `searchGoogleHiring(company)` — wraps the simulated results and flags the
    role types found in them. -/
def searchGoogleHiring (company : Company) : TierJobResult :=
  let mockHiringSignals := simulateGoogleResults company
  if mockHiringSignals.isEmpty then {} else
    { found := true
      titles := mockHiringSignals
      hasSales := mockHiringSignals.any fun t =>
        matchesRolePattern (jsToLower t) salesPatterns
      hasMarketing := mockHiringSignals.any fun t =>
        matchesRolePattern (jsToLower t) marketingPatterns
      hasBD := mockHiringSignals.any fun t =>
        matchesRolePattern (jsToLower t) bdPatterns }

/-- The `weights` table of `calculateJobConfidence` (`weights[source] || 0`). -/
def jobSourceWeight (source : String) : ℚ :=
  if source = "career_page" then 1/2
  else if source = "linkedin_public" then 3/10
  else if source = "google_search" then 1/5
  else 0

/-- `calculateJobConfidence(sources)` — weighted sum over source labels. -/
def calculateJobConfidence (sources : List String) : ℚ :=
  sources.foldl (fun score source => score + jobSourceWeight source) 0

/-- Fallback search outcome (`findJobOpenings` result shape). -/
structure FallbackJobResult where
  found : Bool := false
  sources : List String := []
  jobTitles : List String := []
  hasSales : Bool := false
  hasMarketing : Bool := false
  hasBD : Bool := false
  confidence : ℚ := 0
  deriving DecidableEq, Repr

/-- The tier call sites of `findJobOpenings`, in program order: the career
    page is fetched only when a website is present, the Google search is
    always run, the LinkedIn public page only when a LinkedIn URL is present. -/
def jobTiersInvoked (company : Company) : List String :=
  (if company.website.isSome then ["career_page"] else []) ++
  ["google_search"] ++
  (if company.linkedinAny.isSome then ["linkedin_public"] else [])

/-- `findJobOpenings(company)`.  The career-page and LinkedIn scrape outcomes
    are environment inputs (network results); the Google tier is computed from
    the simulated search. -/
def findJobOpenings (company : Company)
    (careerData linkedinData : TierJobResult) : FallbackJobResult :=
  let googleData := searchGoogleHiring company
  let career := company.website.isSome && careerData.found
  let google := googleData.found
  let li := company.linkedinAny.isSome && linkedinData.found
  let sources :=
    (if career then ["career_page"] else []) ++
    (if google then ["google_search"] else []) ++
    (if li then ["linkedin_public"] else [])
  { found := !sources.isEmpty
    sources := sources
    jobTitles :=
      (if career then careerData.titles else []) ++
      (if google then googleData.titles else []) ++
      (if li then linkedinData.titles else [])
    hasSales :=
      ((false || (career && careerData.hasSales)) ||
        (google && googleData.hasSales)) || (li && linkedinData.hasSales)
    hasMarketing :=
      ((false || (career && careerData.hasMarketing)) ||
        (google && googleData.hasMarketing)) || (li && linkedinData.hasMarketing)
    hasBD :=
      ((false || (career && careerData.hasBD)) ||
        (google && googleData.hasBD)) || (li && linkedinData.hasBD)
    confidence := calculateJobConfidence sources }

/-! ## `job-analyzer-enhanced.js` -/

/-- One job object of the primary API response (fields the analyzer reads).
    The list handed to the embedded analyzer is the `recentJobs` list, i.e.
    the response jobs that passed the `isJobRecent` recency filter — the
    HTTP response and the wall clock are environment. -/
structure JsJob where
  title : String
  listedAt : String
  deriving DecidableEq, Repr

/-- `analyzeJobRoles(jobs)` result shape. -/
structure RoleAnalysis where
  hasSales : Bool
  hasMarketing : Bool
  hasBusinessDevelopment : Bool
  titles : List String
  deriving DecidableEq, Repr

/-- `analyzeJobRoles(jobs)` — pattern-match each title against the role
    dictionaries shared with the fallback scraper. -/
def analyzeJobRoles (jobs : List JsJob) : RoleAnalysis :=
  { hasSales := jobs.any fun job =>
      matchesRolePattern (jsToLower job.title) salesPatterns
    hasMarketing := jobs.any fun job =>
      matchesRolePattern (jsToLower job.title) marketingPatterns
    hasBusinessDevelopment := jobs.any fun job =>
      matchesRolePattern (jsToLower job.title) bdPatterns
    titles := jobs.map fun job => job.title }

/-- `calculateHiringUrgency(recentJobs)`. -/
def calculateHiringUrgency (recentJobs : List JsJob) : String :=
  if recentJobs.isEmpty then "None" else
    let veryRecentJobs := recentJobs.filter fun job =>
      let timeStr := jsToLower job.listedAt
      jsIncludes timeStr "hour" || jsIncludes timeStr "minute" ||
        jsIncludes timeStr "day" ||
        (jsIncludes timeStr "1 week" || jsIncludes timeStr "this week")
    if 2 < veryRecentJobs.length then "High"
    else if 0 < veryRecentJobs.length then "Moderate"
    else if 0 < recentJobs.length then "Low"
    else "None"

/-- The primary-API job record built by `getJobData` and consumed by
    `shouldUseFallback` / `mergeFallbackData`. -/
structure JobData where
  api_success : Bool
  has_recent_jobs : Bool
  has_sales_jobs : Bool
  has_marketing_jobs : Bool
  has_bd_jobs : Bool
  recent_job_titles : String
  job_posting_dates : String
  recent_job_count : Int
  hiring_urgency : String
  data_sources : List String
  confidence : ℚ
  deriving DecidableEq, Repr

/-- `getJobData(company)` on a successful API call, as a function of the
    recency-filtered `recentJobs` of the response. -/
def getJobData (recentJobs : List JsJob) : JobData :=
  let roleAnalysis := analyzeJobRoles recentJobs
  { api_success := true
    has_recent_jobs := roleAnalysis.hasSales || roleAnalysis.hasMarketing ||
      roleAnalysis.hasBusinessDevelopment
    has_sales_jobs := roleAnalysis.hasSales
    has_marketing_jobs := roleAnalysis.hasMarketing
    has_bd_jobs := roleAnalysis.hasBusinessDevelopment
    recent_job_titles := jsJoin "; " (roleAnalysis.titles.take 5)
    job_posting_dates := jsJoin ", " ((recentJobs.take 3).map fun job => job.listedAt)
    recent_job_count := recentJobs.length
    hiring_urgency := calculateHiringUrgency recentJobs
    data_sources := ["linkedin_api"]
    confidence := 4/5 }

/-- `shouldUseFallback(primaryData, company)` of the jobs analyzer. -/
def shouldUseFallback (primaryData : JobData) (company : Company) : Bool :=
  if !primaryData.api_success then true
  else if primaryData.recent_job_count = 0 && jsGtNum company.employee_count 20 then true
  else if primaryData.recent_job_count < 2 && jsGtNum company.employee_count 50 then true
  else false

/-- `primaryData.recent_job_titles ? primaryData.recent_job_titles.split('; ') : []`. -/
def splitTitles (titles : String) : List String :=
  if titles = "" then [] else jsSplit titles "; "

/-- `mergeFallbackData(primaryData, fallbackData)` of the jobs analyzer. -/
def mergeFallbackData (primaryData : JobData) (fallbackData : FallbackJobResult) :
    JobData :=
  let has_sales_jobs := primaryData.has_sales_jobs || fallbackData.hasSales
  let has_marketing_jobs := primaryData.has_marketing_jobs || fallbackData.hasMarketing
  let has_bd_jobs := primaryData.has_bd_jobs || fallbackData.hasBD
  { primaryData with
    data_sources := primaryData.data_sources ++ fallbackData.sources
    has_sales_jobs := has_sales_jobs
    has_marketing_jobs := has_marketing_jobs
    has_bd_jobs := has_bd_jobs
    has_recent_jobs := has_sales_jobs || has_marketing_jobs || has_bd_jobs
    recent_job_titles := jsJoin "; "
      ((splitTitles primaryData.recent_job_titles ++ fallbackData.jobTitles).take 5)
    confidence := (primaryData.confidence + fallbackData.confidence) / 2 }

/-- The jobs columns written onto the company record by the stage.
    `job_data_sources` keeps the JavaScript dynamic typing: an array on the
    success path, the string `''` on the error-default path. -/
structure JobOutputs where
  has_recent_jobs : Bool
  has_sales_jobs : Bool
  has_marketing_jobs : Bool
  has_bd_jobs : Bool
  recent_job_titles : String
  job_posting_dates : String
  recent_job_count : Int
  hiring_urgency : String
  job_data_sources_list : Option (List String)
  job_data_sources_str : Option String
  job_confidence : ℚ
  deriving DecidableEq, Repr

/-- The error-default assignments of the per-company `catch` block. -/
def jobErrorDefaults : JobOutputs :=
  { has_recent_jobs := false
    has_sales_jobs := false
    has_marketing_jobs := false
    has_bd_jobs := false
    recent_job_titles := ""
    job_posting_dates := ""
    recent_job_count := 0
    hiring_urgency := "None"
    job_data_sources_list := none
    job_data_sources_str := some ""
    job_confidence := 0 }

/-- Flatten a `JobData` onto the company columns (the success-path
    assignments of `process`). -/
def flattenJobData (jobData : JobData) : JobOutputs :=
  { has_recent_jobs := jobData.has_recent_jobs
    has_sales_jobs := jobData.has_sales_jobs
    has_marketing_jobs := jobData.has_marketing_jobs
    has_bd_jobs := jobData.has_bd_jobs
    recent_job_titles := jobData.recent_job_titles
    job_posting_dates := jobData.job_posting_dates
    recent_job_count := jobData.recent_job_count
    hiring_urgency := jobData.hiring_urgency
    job_data_sources_list := some jobData.data_sources
    job_data_sources_str := none
    job_confidence := jobData.confidence }

/-- The per-company body of `JobAnalyzerEnhanced.process`: `api` is the
    primary call outcome (`none` = the call threw after retries, landing in
    the catch block), the tier inputs feed the fallback scraper. -/
def processJobCompany (company : Company) (api : Option (List JsJob))
    (careerData linkedinData : TierJobResult) : JobOutputs :=
  match api with
  | none => jobErrorDefaults
  | some recentJobs =>
    let jobData := getJobData recentJobs
    let jobData :=
      if shouldUseFallback jobData company then
        let fallbackData := findJobOpenings company careerData linkedinData
        if fallbackData.found then mergeFallbackData jobData fallbackData else jobData
      else jobData
    flattenJobData jobData

end ExpoPipeline.Jobs

namespace ExpoPipeline.Funding

open ExpoPipeline

/-! ## `funding-scraper-fallback.js` -/

/-- A funding round as built by `extractFundingInfo` / `simulateFundingNews`. -/
structure FBRound where
  amount : String
  type : String
  date : String
  raw : String
  deriving DecidableEq, Repr

/-- One entry of the `details` array of the fallback result. -/
structure FundDetail where
  src : String
  text : String
  date : String
  deriving DecidableEq, Repr

/-- JavaScript `Date` environment: parsing of date strings to epoch
    milliseconds (`none` = Invalid Date), rendering back to the ISO date
    prefix, and the recency threshold date fixed by the wall clock. -/
structure JsDateEnv where
  parse : String → Option Int
  toIso : Int → String
  threshold : Int

/-- `simulateFundingNews(company)` — mock funding rounds fabricated from
    company attributes when no real news search is wired in. -/
def simulateFundingNews (company : Company) : List FBRound :=
  (if jsGtNum company.employee_count 50 && !(company.has_funding_data = some "true") then
    [{ amount := "$2.5M", type := "seed", date := "2024-06-15",
       raw := company.name ++ " raises $2.5M seed round" }] else []) ++
  (if jsGtNum company.employee_count 100 then
    [{ amount := "$10M", type := "series a", date := "2023-11-20",
       raw := company.name ++ " secures $10M Series A" }] else [])

/-- Outcome of one funding scraping tier (`scrapePressReleases` /
    `scrapeLinkedInFunding` result shape). -/
structure TierFundingResult where
  found : Bool := false
  rounds : List FBRound := []
  details : List FundDetail := []
  deriving DecidableEq, Repr

/-- `searchFundingNews(company)` — wraps the simulated news rounds. -/
def searchFundingNews (company : Company) : TierFundingResult :=
  let mockFundingNews := simulateFundingNews company
  if mockFundingNews.isEmpty then {} else
    { found := true
      rounds := mockFundingNews
      details := mockFundingNews.map fun round =>
        { src := "news_search", text := company.name ++ " funding news",
          date := round.date } }

/-- The `weights` table of `calculateFundingConfidence`. -/
def fundingSourceWeight (source : String) : ℚ :=
  if source = "press_releases" then 1/2
  else if source = "linkedin_announcements" then 3/10
  else if source = "news_search" then 1/5
  else 0

/-- `calculateFundingConfidence(sources)`. -/
def calculateFundingConfidence (sources : List String) : ℚ :=
  sources.foldl (fun score source => score + fundingSourceWeight source) 0

/-- `hasRecentFunding(rounds)` of the fallback scraper
    (`new Date(round.date) > thresholdDate`). -/
def fbHasRecentFunding (env : JsDateEnv) (rounds : List FBRound) : Bool :=
  rounds.any fun round =>
    match env.parse round.date with
    | some t => env.threshold < t
    | none => false

/-- `calculateTotalFunding(rounds)` of the fallback scraper. -/
def fbCalculateTotalFunding (rounds : List FBRound) : String :=
  let amounts := (rounds.map fun round => round.amount).filter fun amount => amount ≠ ""
  if amounts.isEmpty then "" else jsJoin ", " amounts

/-- `getLastFundingDate(rounds)` of the fallback scraper: parse every round
    date, keep the valid ones, return the latest as an ISO date (or `''`). -/
def fbGetLastFundingDate (env : JsDateEnv) (rounds : List FBRound) : String :=
  let dates := (rounds.map fun round => round.date).filterMap env.parse
  match dates.max? with
  | none => ""
  | some t => env.toIso t

/-- Fallback funding search outcome (`findFundingData` result shape). -/
structure FallbackFundingResult where
  found : Bool := false
  sources : List String := []
  fundingRounds : List FBRound := []
  recentFunding : Bool := false
  totalAmount : String := ""
  lastFundingDate : String := ""
  confidence : ℚ := 0
  details : List FundDetail := []
  deriving DecidableEq, Repr

/-- The tier call sites of `findFundingData`, in program order: press pages
    only when a website is present, the news search always, the LinkedIn
    page only when a LinkedIn URL is present. -/
def fundingTiersInvoked (company : Company) : List String :=
  (if company.website.isSome then ["press_releases"] else []) ++
  ["news_search"] ++
  (if company.linkedinAny.isSome then ["linkedin_announcements"] else [])

/-- `findFundingData(company)`.  Press-release and LinkedIn scrape outcomes
    are environment inputs; the news tier is computed from the simulation. -/
def findFundingData (company : Company)
    (pressData linkedinData : TierFundingResult) (env : JsDateEnv) :
    FallbackFundingResult :=
  let newsData := searchFundingNews company
  let press := company.website.isSome && pressData.found
  let news := newsData.found
  let li := company.linkedinAny.isSome && linkedinData.found
  let sources :=
    (if press then ["press_releases"] else []) ++
    (if news then ["news_search"] else []) ++
    (if li then ["linkedin_announcements"] else [])
  let fundingRounds :=
    (if press then pressData.rounds else []) ++
    (if news then newsData.rounds else []) ++
    (if li then linkedinData.rounds else [])
  let details :=
    (if press then pressData.details else []) ++
    (if news then newsData.details else []) ++
    (if li then linkedinData.details else [])
  let base : FallbackFundingResult :=
    if 0 < fundingRounds.length then
      { found := true
        recentFunding := fbHasRecentFunding env fundingRounds
        totalAmount := fbCalculateTotalFunding fundingRounds
        lastFundingDate := fbGetLastFundingDate env fundingRounds }
    else {}
  { base with
    sources := sources
    fundingRounds := fundingRounds
    details := details
    confidence := calculateFundingConfidence sources }

/-! ## `funding-analyzer-enhanced.js` -/

/-- One Crunchbase funding round of the primary API response (the fields the
    analyzer reads; absent fields are `none`). -/
structure ApiRound where
  announced_on : Option String := none
  date : Option String := none
  funding_type : Option String := none
  investment_type : Option String := none
  money_raised : Option String := none
  amount : Option String := none
  deriving DecidableEq, Repr

/-- JavaScript truthiness of an optional string field (absent and `''` are
    falsy). -/
def truthy : Option String → Option String
  | none => none
  | some s => if s = "" then none else some s

/-- `a || b || dflt` over string fields with JavaScript truthiness. -/
def jsOr2 (a b : Option String) (dflt : String) : String :=
  match truthy a with
  | some s => s
  | none =>
    match truthy b with
    | some s => s
    | none => dflt

/-- `hasRecentFunding(fundingRounds)` of the enhanced funding analyzer. -/
def hasRecentFunding (env : JsDateEnv) (fundingRounds : List ApiRound) : Bool :=
  if fundingRounds.isEmpty then false else
    fundingRounds.any fun round =>
      match truthy round.announced_on with
      | some d =>
        match env.parse d with
        | some t => env.threshold < t
        | none => false
      | none =>
        match truthy round.date with
        | some d =>
          match env.parse d with
          | some t => env.threshold < t
          | none => false
        | none => false

/-- `formatFundingDetails(fundingRounds)`. -/
def formatFundingDetails (fundingRounds : List ApiRound) : String :=
  if fundingRounds.isEmpty then "" else
    jsJoin " | " ((fundingRounds.take 3).map fun round =>
      let type := jsOr2 round.funding_type round.investment_type "funding"
      let amount := jsOr2 round.money_raised round.amount ""
      let date := jsOr2 round.announced_on round.date ""
      type ++ (if amount ≠ "" then ": " ++ amount else "") ++
        (if date ≠ "" then " (" ++ date ++ ")" else ""))

/-- `getLastFundingDate(fundingRounds)` of the enhanced funding analyzer. -/
def getLastFundingDate (env : JsDateEnv) (fundingRounds : List ApiRound) : String :=
  if fundingRounds.isEmpty then "" else
    let dates := (fundingRounds.map fun round =>
        jsOr2 round.announced_on round.date "").filter (fun d => d ≠ "")
    match (dates.filterMap env.parse).max? with
    | none => ""
    | some t => env.toIso t

/-- `calculateTotalFunding(fundingRounds)` of the enhanced funding analyzer. -/
def calculateTotalFunding (fundingRounds : List ApiRound) : String :=
  let amounts := (fundingRounds.map fun round =>
      jsOr2 round.money_raised round.amount "").filter (fun a => a ≠ "")
  if amounts.isEmpty then "" else jsJoin " + " amounts

/-- The primary-API funding record built by `getFundingData`. -/
structure FundingData where
  api_success : Bool
  has_funding_data : Bool
  has_recent_funding_1yr : Bool
  funding_details : String
  last_funding_date : String
  crunchbase_url : String
  funding_rounds : String
  total_funding : String
  data_sources : List String
  confidence : ℚ
  deriving DecidableEq, Repr

/-- `getFundingData(company)` on a successful API call, as a function of the
    Crunchbase rounds of the response (`crunchbase_url || ''` is `cbUrl`). -/
def getFundingData (env : JsDateEnv) (fundingRounds : List ApiRound)
    (cbUrl : String) : FundingData :=
  { api_success := true
    has_funding_data := 0 < fundingRounds.length
    has_recent_funding_1yr := hasRecentFunding env fundingRounds
    funding_details := formatFundingDetails fundingRounds
    last_funding_date := getLastFundingDate env fundingRounds
    crunchbase_url := cbUrl
    funding_rounds := toString fundingRounds.length
    total_funding := calculateTotalFunding fundingRounds
    data_sources := ["linkedin_api"]
    confidence := 4/5 }

/-- `shouldUseFallback(primaryData, company)` of the funding analyzer. -/
def shouldUseFallback (primaryData : FundingData) (company : Company) : Bool :=
  if !primaryData.api_success then true
  else if !primaryData.has_funding_data && jsGtNum company.employee_count 50 then true
  else if !primaryData.has_recent_funding_1yr && jsGtNum company.employee_count 100 then
    true
  else false

/-- `mergeFallbackData(primaryData, fallbackData)` of the funding analyzer. -/
def mergeFallbackData (primaryData : FundingData)
    (fallbackData : FallbackFundingResult) : FundingData :=
  let primaryDetails :=
    if primaryData.funding_details ≠ "" then [primaryData.funding_details] else []
  let fallbackDetails := fallbackData.details.map fun d =>
    d.text ++ " (" ++ d.src ++ ")"
  { primaryData with
    data_sources := primaryData.data_sources ++ fallbackData.sources
    has_funding_data := primaryData.has_funding_data || fallbackData.found
    has_recent_funding_1yr :=
      primaryData.has_recent_funding_1yr || fallbackData.recentFunding
    funding_details := jsJoin " | " ((primaryDetails ++ fallbackDetails).take 3)
    last_funding_date :=
      if fallbackData.lastFundingDate ≠ "" &&
          (primaryData.last_funding_date = "" ||
            primaryData.last_funding_date < fallbackData.lastFundingDate) then
        fallbackData.lastFundingDate
      else primaryData.last_funding_date
    total_funding :=
      if fallbackData.totalAmount ≠ "" && primaryData.total_funding = "" then
        fallbackData.totalAmount
      else primaryData.total_funding
    confidence := (primaryData.confidence + fallbackData.confidence) / 2 }

/-- The funding columns written onto the company record by the stage; like
    the jobs stage, `funding_data_sources` is an array on the success path
    and `''` on the error-default path. -/
structure FundingOutputs where
  has_funding_data : Bool
  has_recent_funding_1yr : Bool
  funding_details : String
  last_funding_date : String
  crunchbase_url : String
  funding_rounds : String
  total_funding : String
  funding_data_sources_list : Option (List String)
  funding_data_sources_str : Option String
  funding_confidence : ℚ
  deriving DecidableEq, Repr

/-- The error-default assignments of the per-company `catch` block. -/
def fundingErrorDefaults : FundingOutputs :=
  { has_funding_data := false
    has_recent_funding_1yr := false
    funding_details := ""
    last_funding_date := ""
    crunchbase_url := ""
    funding_rounds := ""
    total_funding := ""
    funding_data_sources_list := none
    funding_data_sources_str := some ""
    funding_confidence := 0 }

/-- Flatten a `FundingData` onto the company columns. -/
def flattenFundingData (fundingData : FundingData) : FundingOutputs :=
  { has_funding_data := fundingData.has_funding_data
    has_recent_funding_1yr := fundingData.has_recent_funding_1yr
    funding_details := fundingData.funding_details
    last_funding_date := fundingData.last_funding_date
    crunchbase_url := fundingData.crunchbase_url
    funding_rounds := fundingData.funding_rounds
    total_funding := fundingData.total_funding
    funding_data_sources_list := some fundingData.data_sources
    funding_data_sources_str := none
    funding_confidence := fundingData.confidence }

/-- The per-company body of `FundingAnalyzerEnhanced.process`: `api` carries
    the Crunchbase rounds and URL of a successful primary call, `none` means
    the call threw after retries (catch block). -/
def processFundingCompany (company : Company)
    (api : Option (List ApiRound × String))
    (pressData linkedinData : TierFundingResult) (env : JsDateEnv) :
    FundingOutputs :=
  match api with
  | none => fundingErrorDefaults
  | some (rounds, cbUrl) =>
    let fundingData := getFundingData env rounds cbUrl
    let fundingData :=
      if shouldUseFallback fundingData company then
        let fallbackData := findFundingData company pressData linkedinData env
        if fallbackData.found then mergeFallbackData fundingData fallbackData
        else fundingData
      else fundingData
    flattenFundingData fundingData

end ExpoPipeline.Funding

namespace ExpoPipeline.Employee

open ExpoPipeline

/-! ## `employee-analyzer.js` -/

/-- The employee fields extracted from the primary API response
    (`extractEmployeeCount` / `extractEmployeeRange` results; the raw
    `employeesOnLinkedIn` field feeds the evidence string). -/
structure EmployeeApiData where
  employeeCount : Option Int := none
  employeeRange : Option String := none
  employeesOnLinkedIn : Option Int := none
  deriving DecidableEq, Repr

/-- Leading decimal digits of a character list, as a number. -/
def leadingDigits (l : List Char) : Option Nat :=
  let ds := l.takeWhile fun c => c.isDigit
  if ds.isEmpty then none
  else some (ds.foldl (fun n c => 10 * n + (c.toNat - 48)) 0)

/-- Trailing decimal digits of a character list, as a number. -/
def trailingDigits (l : List Char) : Option Nat :=
  leadingDigits ((l.reverse.takeWhile fun c => c.isDigit).reverse)

/-- First `(\d+)-(\d+)` match of a string: adjacent pieces around a dash
    where the left ends and the right begins with digits. -/
def firstRange (s : String) : Option (Int × Int) :=
  go (jsSplit s "-")
  where go : List String → Option (Int × Int)
    | [] => none
    | [_] => none
    | a :: b :: rest =>
      match trailingDigits a.data, leadingDigits b.data with
      | some x, some y => some ((x : Int), (y : Int))
      | _, _ => go (b :: rest)

/-- `isInTargetRange(employeeCount, employeeRange)`: exact count against the
    window when a (truthy) count is present, otherwise overlap of the first
    `N-M` range found in the range string. -/
def isInTargetRange (employeeCount : Option Int) (employeeRange : Option String)
    (min max : Int) : Bool :=
  match employeeCount with
  | some n =>
    if n ≠ 0 then decide (min ≤ n ∧ n ≤ max)
    else rangeCheck employeeRange min max
  | none => rangeCheck employeeRange min max
  where rangeCheck (employeeRange : Option String) (min max : Int) : Bool :=
    match employeeRange with
    | none => false
    | some s =>
      match firstRange s with
      | some (rangeStart, rangeEnd) => decide (rangeStart ≤ max ∧ min ≤ rangeEnd)
      | none => false

/-- `generateEvidence(employeeCount, employeeRange, rawData)`. -/
def generateEvidence (d : EmployeeApiData) : String :=
  jsJoin " | "
    ((match d.employeeCount with
      | some n => if n ≠ 0 then ["Exact count: " ++ toString n] else []
      | none => []) ++
     (match d.employeeRange with
      | some s => if s ≠ "" then ["Range: " ++ s] else []
      | none => []) ++
     (match d.employeesOnLinkedIn with
      | some n => if n ≠ 0 then ["LinkedIn employees: " ++ toString n] else []
      | none => []))

/-- Per-company body of `EmployeeAnalyzer.process`: writes the employee
    fields onto the record and reports whether the company is kept by the
    target-range filter.  `outcome` is the primary API call result; an
    `Except.error` is the thrown message reaching the catch block. -/
def employeeStep (min max : Int) (outcome : Except String EmployeeApiData)
    (company : Company) : Company × Bool :=
  match outcome with
  | Except.ok d =>
    let inTargetRange := isInTargetRange d.employeeCount d.employeeRange min max
    ({ company with
        employee_count := d.employeeCount
        employee_range := d.employeeRange
        in_target_range_11_200 := some inTargetRange
        employee_data_source := some (generateEvidence d) },
     inTargetRange)
  | Except.error msg =>
    ({ company with
        employee_count := none
        employee_range := none
        in_target_range_11_200 := some false
        employee_data_source := some ("Error: " ++ msg) },
     false)

/-- `EmployeeAnalyzer.process`: the stage truncates the working collection to
    the companies the filter kept (`companies.length = 0; companies.push(...)`). -/
def employeeStage (min max : Int) (env : Company → Except String EmployeeApiData)
    (companies : List Company) : List Company :=
  ((companies.map fun c => employeeStep min max (env c) c).filter
    fun r => r.2).map fun r => r.1

end ExpoPipeline.Employee

namespace ExpoPipeline.Consolidator

open ExpoPipeline

/-! ## `consolidator.js` -/

/-- A CSV cell value as stored on a company object. -/
inductive CsvValue where
  | vStr (s : String)
  | vBool (b : Bool)
  | vNum (n : Int)
  | vNull
  deriving DecidableEq, Repr

/-- A company object as the consolidator sees it: a column bag with the
    object's key order. -/
abbrev Row := List (String × CsvValue)

/-- `company[header]` (`undefined` for a missing key). -/
def jsLookup (r : Row) (h : String) : CsvValue :=
  match r.find? fun kv => kv.1 = h with
  | some kv => kv.2
  | none => CsvValue.vNull

/-- Double every double quote (`replace(/"/g, '""')`). -/
def escQuotes : List Char → List Char
  | [] => []
  | c :: t => if c = '"' then '"' :: '"' :: escQuotes t else c :: escQuotes t

/-- The value contains a comma, a double quote or a newline. -/
def needsEscape (s : String) : Bool :=
  jsIncludes s "," || jsIncludes s "\"" || jsIncludes s "\n"

/-- CSV escaping of a string cell. -/
def csvEscape (s : String) : String :=
  if needsEscape s then "\"" ++ (⟨escQuotes s.data⟩ : String) ++ "\"" else s

/-- Serialization of one cell (`null`/`undefined` → `''`, booleans →
    uppercase, numbers via `String(value)`, strings escaped). -/
def serializeValue : CsvValue → String
  | CsvValue.vNull => ""
  | CsvValue.vBool b => if b then "TRUE" else "FALSE"
  | CsvValue.vNum n => toString n
  | CsvValue.vStr s => csvEscape s

/-- The preferred column order of `generateCSV`. -/
def priorityColumns : List String :=
  ["name", "companyName", "website", "linkedin_url", "linkedin_source",
   "description", "industry", "employee_count", "in_target_range_11_200",
   "has_funding_data", "has_recent_funding_1yr", "funding_details",
   "has_recent_jobs", "has_sales_jobs", "has_marketing_jobs", "has_bd_jobs",
   "priority_score", "processing_date", "processing_notes"]

/-- The columns `generateCSV` drops from the final output. -/
def excludeColumns : List String :=
  ["linkedin", "LinkedIn", "LinkedIn URL", "LinkedIn url", "linkedin_original"]

/-- Insert a header into the growing key set if it is new (JS `Set`
    insertion order). -/
def addKeys (acc : List String) (r : Row) : List String :=
  r.foldl (fun a kv => if a.contains kv.1 then a else a ++ [kv.1]) acc

/-- `allHeaders`: every key of every company, first-occurrence order. -/
def allHeadersOf (companies : List Row) : List String :=
  companies.foldl addKeys []

/-- Code-unit comparison of two strings (JavaScript default sort order). -/
def charListLe : List Char → List Char → Bool
  | [], _ => true
  | _ :: _, [] => false
  | a :: as, b :: bs =>
    if a.toNat < b.toNat then true
    else if a.toNat = b.toNat then charListLe as bs
    else false

/-- Insertion into a sorted list of strings. -/
def insertSorted (x : String) : List String → List String
  | [] => [x]
  | y :: ys => if charListLe x.data y.data then x :: y :: ys else y :: insertSorted x ys

/-- JavaScript `Array.prototype.sort()` on strings. -/
def jsSortStrings : List String → List String
  | [] => []
  | x :: xs => insertSorted x (jsSortStrings xs)

/-- `orderedHeaders`: the priority columns that occur, in preferred order,
    then the remaining non-excluded columns sorted. -/
def orderedHeadersOf (companies : List Row) : List String :=
  let allHeaders := allHeadersOf companies
  let prio := priorityColumns.filter fun col => allHeaders.contains col
  let remainingHeaders := jsSortStrings
    (((allHeaders.filter fun col => !priorityColumns.contains col).filter
      fun col => !excludeColumns.contains col))
  prio ++ remainingHeaders

/-- The serialized cells of one company row, in header order. -/
def csvCellsFor (companies : List Row) (r : Row) : List String :=
  (orderedHeadersOf companies).map fun h => serializeValue (jsLookup r h)

/-- The data lines of the generated CSV, one per company. -/
def csvRowsOf (companies : List Row) : List String :=
  companies.map fun r => jsJoin "," (csvCellsFor companies r)

/-- `generateCSV(companies)`. -/
def generateCSV (companies : List Row) : String :=
  if companies.isEmpty then "No data"
  else jsJoin "\n" (jsJoin "," (orderedHeadersOf companies) :: csvRowsOf companies)

/-- Flattening of a company record into the column bag handed to the
    consolidator (the columns the embedded stages populate). -/
def toRow (c : Company) : Row :=
  [("name", CsvValue.vStr c.name)] ++
  (match c.website with
   | some w => [("website", CsvValue.vStr w)]
   | none => []) ++
  (match c.linkedin_url with
   | some u => [("linkedin_url", CsvValue.vStr u)]
   | none => []) ++
  (match c.employee_count with
   | some n => [("employee_count", CsvValue.vNum n)]
   | none => []) ++
  (match c.employee_range with
   | some s => [("employee_range", CsvValue.vStr s)]
   | none => []) ++
  (match c.in_target_range_11_200 with
   | some b => [("in_target_range_11_200", CsvValue.vBool b)]
   | none => []) ++
  (match c.employee_data_source with
   | some s => [("employee_data_source", CsvValue.vStr s)]
   | none => [])

end ExpoPipeline.Consolidator

namespace ExpoPipeline

open Jobs Funding Employee Consolidator

/-- The spec-side list fusion: concatenate primary items then fallback
    items, truncate to the cap, join for display. -/
def specListFusion (cap : Nat) (primaryItems fallbackItems : List String)
    (sep : String) : String :=
  jsJoin sep ((primaryItems ++ fallbackItems).take cap)

/-- Trivial date environment for concrete evaluations (every date string
    parses as invalid). -/
def dateEnvTrivial : JsDateEnv :=
  { parse := fun _ => none, toIso := fun _ => "", threshold := 0 }

/-- Primary funding record for the C7 counterexample: one API round. -/
def c7Primary : FundingData :=
  getFundingData dateEnvTrivial
    [{ funding_type := some "seed", money_raised := some "$1M",
       announced_on := some "2023-01-01" }] ""

/-- Fallback funding result for the C7 counterexample: a press-release tier
    with three details. -/
def c7Fallback : FallbackFundingResult :=
  findFundingData
    { name := "Acme", website := some "https://acme.example" }
    { found := true
      rounds :=
        [{ amount := "$1M", type := "seed", date := "", raw := "pr one" },
         { amount := "$2M", type := "series a", date := "", raw := "pr two" },
         { amount := "$3M", type := "series b", date := "", raw := "pr three" }]
      details :=
        [{ src := "press_release", text := "pr one", date := "" },
         { src := "press_release", text := "pr two", date := "" },
         { src := "press_release", text := "pr three", date := "" }] }
    {} dateEnvTrivial

/-! ## Shared helper lemmas -/

lemma jobSourceWeight_career : jobSourceWeight "career_page" = 1/2 := rfl

lemma jobSourceWeight_google : jobSourceWeight "google_search" = 1/5 := rfl

lemma jobSourceWeight_linkedin : jobSourceWeight "linkedin_public" = 3/10 := rfl

lemma fundingSourceWeight_press : fundingSourceWeight "press_releases" = 1/2 := rfl

lemma fundingSourceWeight_news : fundingSourceWeight "news_search" = 1/5 := rfl

lemma fundingSourceWeight_linkedin :
    fundingSourceWeight "linkedin_announcements" = 3/10 := rfl

/-- Bounds for the job-confidence sum over any combination of the three
    tier labels. -/
lemma calculateJobConfidence_shape_bounds (b1 b2 b3 : Bool) :
    0 ≤ calculateJobConfidence ((if b1 then ["career_page"] else []) ++
      (if b2 then ["google_search"] else []) ++
      (if b3 then ["linkedin_public"] else [])) ∧
    calculateJobConfidence ((if b1 then ["career_page"] else []) ++
      (if b2 then ["google_search"] else []) ++
      (if b3 then ["linkedin_public"] else [])) ≤ 1 := by
  cases b1 <;> cases b2 <;> cases b3 <;>
    simp [calculateJobConfidence, jobSourceWeight_career, jobSourceWeight_google,
      jobSourceWeight_linkedin] <;> norm_num

/-- Bounds for the funding-confidence sum over any combination of the three
    tier labels. -/
lemma calculateFundingConfidence_shape_bounds (b1 b2 b3 : Bool) :
    0 ≤ calculateFundingConfidence ((if b1 then ["press_releases"] else []) ++
      (if b2 then ["news_search"] else []) ++
      (if b3 then ["linkedin_announcements"] else [])) ∧
    calculateFundingConfidence ((if b1 then ["press_releases"] else []) ++
      (if b2 then ["news_search"] else []) ++
      (if b3 then ["linkedin_announcements"] else [])) ≤ 1 := by
  cases b1 <;> cases b2 <;> cases b3 <;>
    simp [calculateFundingConfidence, fundingSourceWeight_press,
      fundingSourceWeight_news, fundingSourceWeight_linkedin] <;> norm_num

lemma findJobOpenings_confidence_eq (c : Company) (cd ld : TierJobResult) :
    (findJobOpenings c cd ld).confidence =
      calculateJobConfidence
        ((if c.website.isSome && cd.found then ["career_page"] else []) ++
         (if (searchGoogleHiring c).found then ["google_search"] else []) ++
         (if c.linkedinAny.isSome && ld.found then ["linkedin_public"] else [])) := rfl

lemma findJobOpenings_confidence_bounds (c : Company) (cd ld : TierJobResult) :
    0 ≤ (findJobOpenings c cd ld).confidence ∧
      (findJobOpenings c cd ld).confidence ≤ 1 := by
  rw [findJobOpenings_confidence_eq]
  exact calculateJobConfidence_shape_bounds _ _ _

lemma findFundingData_confidence_eq (c : Company) (pd ld : TierFundingResult)
    (env : JsDateEnv) :
    (findFundingData c pd ld env).confidence =
      calculateFundingConfidence
        ((if c.website.isSome && pd.found then ["press_releases"] else []) ++
         (if (searchFundingNews c).found then ["news_search"] else []) ++
         (if c.linkedinAny.isSome && ld.found then ["linkedin_announcements"] else [])) :=
  rfl

lemma findFundingData_confidence_bounds (c : Company) (pd ld : TierFundingResult)
    (env : JsDateEnv) :
    0 ≤ (findFundingData c pd ld env).confidence ∧
      (findFundingData c pd ld env).confidence ≤ 1 := by
  rw [findFundingData_confidence_eq]
  exact calculateFundingConfidence_shape_bounds _ _ _

/-! ## Claim theorems -/

/-- Claim C1: the claim says the search-engine tier contributes `found:false`
    when no real search capability is wired in; the shipped fallback
    scrapers instead fabricate results from company attributes.  At a
    company with 25 employees the simulated Google search reports
    `found:true` with a fabricated title (which even sets the sales flag,
    since `"team"` contains the pattern `"am"`), and at a company with 60
    employees the simulated news search fabricates a $2.5M seed round, so
    the fused fallback results carry synthesized data. -/
theorem c1_search_tier_fabricates_instead_of_found_false :
    ∀ env : JsDateEnv,
    (searchGoogleHiring { name := "Acme", employee_count := some 25 }).found = true ∧
    (searchGoogleHiring { name := "Acme", employee_count := some 25 }).titles =
      ["Acme is hiring new team members"] ∧
    (searchGoogleHiring { name := "Acme", employee_count := some 25 }).hasSales = true ∧
    (findJobOpenings { name := "Acme", employee_count := some 25 } {} {}).found = true ∧
    (findJobOpenings { name := "Acme", employee_count := some 25 } {} {}).sources =
      ["google_search"] ∧
    (searchFundingNews { name := "Benco", employee_count := some 60 }).found = true ∧
    (findFundingData { name := "Benco", employee_count := some 60 } {} {} env).found =
      true ∧
    (findFundingData { name := "Benco", employee_count := some 60 } {} {} env).fundingRounds =
      [{ amount := "$2.5M", type := "seed", date := "2024-06-15",
         raw := "Benco raises $2.5M seed round" }] := by
  intro env
  refine ⟨by decide, by decide, by decide, by decide, by decide, by decide, rfl, rfl⟩

/-- Claim C2, counterexample: a company with 25 employees (below the higher
    floor of 50), for which fallback is triggered (zero recent jobs from a
    successful API call) and whose tier-1 career-page scrape found a signal,
    still has the search-engine tier invoked — `findJobOpenings` runs its
    Google search unconditionally, and it even contributes to the fused
    sources; the funding scraper likewise always runs its news search. -/
theorem c2_counterexample_search_tier_not_last_resort :
    shouldUseFallback (getJobData [])
      { name := "Acme", website := some "https://acme.example",
        employee_count := some 25 } = true ∧
    jsGtNum (some (25 : Int)) 50 = false ∧
    "google_search" ∈ jobTiersInvoked
      { name := "Acme", website := some "https://acme.example",
        employee_count := some 25 } ∧
    "google_search" ∈ (findJobOpenings
      { name := "Acme", website := some "https://acme.example",
        employee_count := some 25 }
      { found := true, titles := ["Sales Manager - join our team"],
        hasSales := true } {}).sources ∧
    "news_search" ∈ fundingTiersInvoked
      { name := "Acme", website := some "https://acme.example",
        employee_count := some 25 } := by
  refine ⟨by decide, by decide, by decide, by decide, by decide⟩

/-- Claim C2, amended: in the Phase-1 fallback scrapers the search-engine
    tier is not gated at all — `findJobOpenings` and `findFundingData`
    invoke their search tier for every company on every fallback run,
    regardless of `employee_count` and of the tier-1 outcome. -/
theorem c2_amended_search_tier_always_invoked (company : Company) :
    "google_search" ∈ jobTiersInvoked company ∧
    "news_search" ∈ fundingTiersInvoked company := by
  constructor <;> simp [jobTiersInvoked, fundingTiersInvoked]

lemma flattenJobData_confidence (d : JobData) :
    (flattenJobData d).job_confidence = d.confidence := rfl

lemma getJobData_confidence (jobs : List JsJob) :
    (getJobData jobs).confidence = 4/5 := rfl

lemma mergeJobFallback_confidence (p : JobData) (f : FallbackJobResult) :
    (Jobs.mergeFallbackData p f).confidence = (p.confidence + f.confidence) / 2 := rfl

lemma flattenFundingData_confidence (d : FundingData) :
    (flattenFundingData d).funding_confidence = d.confidence := rfl

lemma getFundingData_confidence (env : JsDateEnv) (rounds : List ApiRound)
    (cbUrl : String) : (getFundingData env rounds cbUrl).confidence = 4/5 := rfl

lemma mergeFundingFallback_confidence (p : FundingData) (f : FallbackFundingResult) :
    (Funding.mergeFallbackData p f).confidence = (p.confidence + f.confidence) / 2 := rfl

/-- The jobs stage writes confidence `0.8`, or the merged average with the
    fallback confidence, or the error default `0`. -/
lemma processJobCompany_confidence_cases (company : Company) (api : Option (List JsJob))
    (cd ld : TierJobResult) :
    (processJobCompany company api cd ld).job_confidence = 0 ∨
    (processJobCompany company api cd ld).job_confidence = 4/5 ∨
    (processJobCompany company api cd ld).job_confidence =
      (4/5 + (findJobOpenings company cd ld).confidence) / 2 := by
  cases api with
  | none => left; rfl
  | some jobs =>
    simp only [processJobCompany]
    by_cases h1 : (Jobs.shouldUseFallback (getJobData jobs) company) = true
    · rw [if_pos h1]
      by_cases h2 : (findJobOpenings company cd ld).found = true
      · rw [if_pos h2]
        right; right
        rw [flattenJobData_confidence, mergeJobFallback_confidence,
          getJobData_confidence]
      · rw [if_neg h2]
        right; left
        rw [flattenJobData_confidence, getJobData_confidence]
    · rw [if_neg h1]
      right; left
      rw [flattenJobData_confidence, getJobData_confidence]

/-- The funding stage writes confidence `0.8`, or the merged average with the
    fallback confidence, or the error default `0`. -/
lemma processFundingCompany_confidence_cases (company : Company)
    (fapi : Option (List ApiRound × String)) (pd ltd : TierFundingResult)
    (env : JsDateEnv) :
    (processFundingCompany company fapi pd ltd env).funding_confidence = 0 ∨
    (processFundingCompany company fapi pd ltd env).funding_confidence = 4/5 ∨
    (processFundingCompany company fapi pd ltd env).funding_confidence =
      (4/5 + (findFundingData company pd ltd env).confidence) / 2 := by
  cases fapi with
  | none => left; rfl
  | some rc =>
    simp only [processFundingCompany]
    by_cases h1 :
        (Funding.shouldUseFallback (getFundingData env rc.1 rc.2) company) = true
    · rw [if_pos h1]
      by_cases h2 : (findFundingData company pd ltd env).found = true
      · rw [if_pos h2]
        right; right
        rw [flattenFundingData_confidence, mergeFundingFallback_confidence,
          getFundingData_confidence]
      · rw [if_neg h2]
        right; left
        rw [flattenFundingData_confidence, getFundingData_confidence]
    · rw [if_neg h1]
      right; left
      rw [flattenFundingData_confidence, getFundingData_confidence]

/-- Claim C4: every fused jobs/funding result — API-only, merged with
    fallback (where the merged confidence is the average of the primary
    confidence and the fallback weighted sum), or the error default — has a
    confidence within `[0, 1]`. -/
theorem c4_confidence_bounds (company : Company) (api : Option (List JsJob))
    (cd ld : TierJobResult) (fapi : Option (List ApiRound × String))
    (pd ltd : TierFundingResult) (env : JsDateEnv) :
    (0 ≤ (processJobCompany company api cd ld).job_confidence ∧
      (processJobCompany company api cd ld).job_confidence ≤ 1) ∧
    (0 ≤ (processFundingCompany company fapi pd ltd env).funding_confidence ∧
      (processFundingCompany company fapi pd ltd env).funding_confidence ≤ 1) := by
  constructor
  · have hfb := findJobOpenings_confidence_bounds company cd ld
    rcases processJobCompany_confidence_cases company api cd ld with h | h | h <;>
      rw [h] <;> exact ⟨by linarith [hfb.1], by linarith [hfb.2]⟩
  · have hfb := findFundingData_confidence_bounds company pd ltd env
    rcases processFundingCompany_confidence_cases company fapi pd ltd env with
      h | h | h <;> rw [h] <;> exact ⟨by linarith [hfb.1], by linarith [hfb.2]⟩

/-- Claim C5: the zero-jobs escalation rule is a strict `>` at the floor 20 —
    with a successful primary result and zero recent jobs, a company with
    exactly 20 employees does not escalate to fallback while one with 21
    does. -/
theorem c5_zero_jobs_floor_strict (p : JobData) (c20 c21 : Company)
    (hp : p.api_success = true) (h0 : p.recent_job_count = 0)
    (h20 : c20.employee_count = some 20) (h21 : c21.employee_count = some 21) :
    Jobs.shouldUseFallback p c20 = false ∧ Jobs.shouldUseFallback p c21 = true := by
  constructor <;> simp [Jobs.shouldUseFallback, hp, h0, h20, h21, jsGtNum]

/-- Witness for C5 at a concrete primary result and concrete companies. -/
theorem c5_zero_jobs_floor_strict_witness :
    Jobs.shouldUseFallback (getJobData [])
      { name := "At the floor", employee_count := some 20 } = false ∧
    Jobs.shouldUseFallback (getJobData [])
      { name := "Above the floor", employee_count := some 21 } = true :=
  c5_zero_jobs_floor_strict (getJobData [])
    { name := "At the floor", employee_count := some 20 }
    { name := "Above the floor", employee_count := some 21 }
    rfl rfl rfl rfl

/-- Claim C6: the merged role flags are the logical OR of the primary and
    fallback flags, so a flag set `true` by any merged source stays `true`
    regardless of another source reporting `false` (merging never retracts
    a flag). -/
theorem c6_merge_flags_or_non_retracting (p : JobData) (f : FallbackJobResult) :
    ((Jobs.mergeFallbackData p f).has_sales_jobs = (p.has_sales_jobs || f.hasSales)) ∧
    ((Jobs.mergeFallbackData p f).has_marketing_jobs =
      (p.has_marketing_jobs || f.hasMarketing)) ∧
    ((Jobs.mergeFallbackData p f).has_bd_jobs = (p.has_bd_jobs || f.hasBD)) ∧
    (p.has_sales_jobs = true ∨ f.hasSales = true →
      (Jobs.mergeFallbackData p f).has_sales_jobs = true) ∧
    (p.has_marketing_jobs = true ∨ f.hasMarketing = true →
      (Jobs.mergeFallbackData p f).has_marketing_jobs = true) ∧
    (p.has_bd_jobs = true ∨ f.hasBD = true →
      (Jobs.mergeFallbackData p f).has_bd_jobs = true) := by
  refine ⟨rfl, rfl, rfl, ?_, ?_, ?_⟩ <;>
    · intro h
      show (_ || _) = true
      rcases h with h | h <;> simp [h]

/-- Witness for C6: a primary result with a sales flag merged with a
    fallback result reporting `hasSales = false` keeps the flag `true`. -/
theorem c6_merge_flags_or_non_retracting_witness :
    (Jobs.mergeFallbackData
      (getJobData [{ title := "Account Executive", listedAt := "3 days ago" }])
      {}).has_sales_jobs = true :=
  (c6_merge_flags_or_non_retracting
    (getJobData [{ title := "Account Executive", listedAt := "3 days ago" }])
    {}).2.2.2.1 (Or.inl (by decide))

/-- Claim C7, counterexample: merging one primary funding detail with three
    fallback details keeps only 3 items, not the claimed fixed cap of 5 —
    the four available items are truncated to three. -/
theorem c7_counterexample_funding_details_cap_is_3 :
    (Funding.mergeFallbackData c7Primary c7Fallback).funding_details =
      "seed: $1M (2023-01-01) | pr one (press_release) | pr two (press_release)" ∧
    specListFusion 5 [c7Primary.funding_details]
      (c7Fallback.details.map fun d => d.text ++ " (" ++ d.src ++ ")") " | " =
      "seed: $1M (2023-01-01) | pr one (press_release) | pr two (press_release)" ++
        " | pr three (press_release)" ∧
    (Funding.mergeFallbackData c7Primary c7Fallback).funding_details ≠
      specListFusion 5 [c7Primary.funding_details]
        (c7Fallback.details.map fun d => d.text ++ " (" ++ d.src ++ ")") " | " := by
  refine ⟨by decide, by decide, by decide⟩

/-- Claim C7, amended: merged list payloads are the concatenation of the
    primary items followed by the fallback items in invocation order,
    truncated to a fixed cap — 5 items for job titles but 3 for funding
    details. -/
theorem c7_amended_list_payload_fusion (p : JobData) (f : FallbackJobResult)
    (q : FundingData) (g : FallbackFundingResult) :
    (Jobs.mergeFallbackData p f).recent_job_titles =
      specListFusion 5 (splitTitles p.recent_job_titles) f.jobTitles "; " ∧
    (Funding.mergeFallbackData q g).funding_details =
      specListFusion 3 (if q.funding_details ≠ "" then [q.funding_details] else [])
        (g.details.map fun d => d.text ++ " (" ++ d.src ++ ")") " | " :=
  ⟨rfl, rfl⟩

/-- Claim C9, counterexample: on total failure the jobs stage defaults
    `hiring_urgency` to the sentinel `'None'`, which is not `false`, the
    empty string, or `0`. -/
theorem c9_counterexample_hiring_urgency_sentinel :
    (processJobCompany { name := "Acme" } none {} {}).hiring_urgency = "None" ∧
    (processJobCompany { name := "Acme" } none {} {}).hiring_urgency ≠ "" := by
  refine ⟨rfl, by decide⟩

/-- Claim C9, amended: both analyzer stages always produce the full typed
    output record; on a failed primary call the jobs stage writes the
    defaults `false`/`''`/`0` except `hiring_urgency`, which defaults to the
    sentinel `'None'`, and the funding stage writes exactly
    `false`/`''`/`0`. -/
theorem c9_amended_error_defaults (company : Company) (cd ld : TierJobResult)
    (pd ltd : TierFundingResult) (env : JsDateEnv) :
    processJobCompany company none cd ld = jobErrorDefaults ∧
    processFundingCompany company none pd ltd env = fundingErrorDefaults ∧
    jobErrorDefaults =
      { has_recent_jobs := false, has_sales_jobs := false,
        has_marketing_jobs := false, has_bd_jobs := false,
        recent_job_titles := "", job_posting_dates := "", recent_job_count := 0,
        hiring_urgency := "None", job_data_sources_list := none,
        job_data_sources_str := some "", job_confidence := 0 } ∧
    fundingErrorDefaults =
      { has_funding_data := false, has_recent_funding_1yr := false,
        funding_details := "", last_funding_date := "", crunchbase_url := "",
        funding_rounds := "", total_funding := "",
        funding_data_sources_list := none, funding_data_sources_str := some "",
        funding_confidence := 0 } :=
  ⟨rfl, rfl, rfl, rfl⟩

/-- Claim C10: after the jobs stage — API-only, merged-fallback, or error
    path — `has_recent_jobs` equals the OR of the three role flags, so a
    company whose recent postings match no target role pattern is reported
    with `has_recent_jobs = false`. -/
theorem c10_has_recent_jobs_iff_role_flags (company : Company)
    (api : Option (List JsJob)) (cd ld : TierJobResult) :
    (processJobCompany company api cd ld).has_recent_jobs =
      ((processJobCompany company api cd ld).has_sales_jobs ||
        (processJobCompany company api cd ld).has_marketing_jobs ||
        (processJobCompany company api cd ld).has_bd_jobs) := by
  cases api with
  | none => rfl
  | some jobs =>
    simp only [processJobCompany]
    by_cases h1 : (Jobs.shouldUseFallback (getJobData jobs) company) = true
    · rw [if_pos h1]
      by_cases h2 : (findJobOpenings company cd ld).found = true
      · rw [if_pos h2]; rfl
      · rw [if_neg h2]; rfl
    · rw [if_neg h1]; rfl

/-! ## Lemmas about the consolidator header computation -/

lemma mem_addKeys_of_mem (x : String) (r : Row) :
    ∀ acc : List String, x ∈ acc → x ∈ addKeys acc r := by
  induction r with
  | nil => intro acc hx; simpa [addKeys] using hx
  | cons kv t ih =>
    intro acc hx
    show x ∈ List.foldl _ _ (kv :: t)
    rw [List.foldl_cons]
    apply ih
    cases hc : acc.contains kv.1 <;> simp [hc, hx]

lemma mem_addKeys_of_key (k : String) (v : CsvValue) (r : Row) :
    ∀ acc : List String, (k, v) ∈ r → k ∈ addKeys acc r := by
  induction r with
  | nil => intro acc hx; cases hx
  | cons kv t ih =>
    intro acc hx
    rcases List.mem_cons.mp hx with heq | hmem
    · show k ∈ List.foldl _ _ (kv :: t)
      rw [List.foldl_cons]
      apply mem_addKeys_of_mem
      subst heq
      cases hc : acc.contains k with
      | true =>
        simp only [hc, if_true]
        simpa [List.contains, List.elem_iff] using hc
      | false => simp [hc]
    · show k ∈ List.foldl _ _ (kv :: t)
      rw [List.foldl_cons]
      exact ih _ hmem

lemma mem_foldl_addKeys (rows : List Row) :
    ∀ (acc : List String) (x : String), x ∈ acc → x ∈ rows.foldl addKeys acc := by
  induction rows with
  | nil => intro acc x hx; simpa using hx
  | cons r t ih =>
    intro acc x hx
    rw [List.foldl_cons]
    exact ih _ _ (mem_addKeys_of_mem x r acc hx)

lemma mem_foldl_addKeys_of_key (k : String) (v : CsvValue) (r : Row) :
    ∀ (rows : List Row) (acc : List String), r ∈ rows → (k, v) ∈ r →
      k ∈ rows.foldl addKeys acc := by
  intro rows
  induction rows with
  | nil => intro acc hr; cases hr
  | cons r0 t ih =>
    intro acc hr hkv
    rw [List.foldl_cons]
    rcases List.mem_cons.mp hr with heq | hr2
    · subst heq
      exact mem_foldl_addKeys t _ k (mem_addKeys_of_key k v r acc hkv)
    · exact ih _ hr2 hkv

/-- Every key of every company reaches the header set. -/
lemma mem_allHeadersOf (k : String) (v : CsvValue) (r : Row) (rows : List Row)
    (hr : r ∈ rows) (hkv : (k, v) ∈ r) : k ∈ allHeadersOf rows :=
  mem_foldl_addKeys_of_key k v r rows [] hr hkv

lemma mem_insertSorted (x y : String) (l : List String) :
    x ∈ insertSorted y l ↔ x = y ∨ x ∈ l := by
  induction l with
  | nil => simp [insertSorted]
  | cons z t ih =>
    cases hle : charListLe y.data z.data with
    | true => simp [insertSorted, hle]
    | false =>
      simp only [insertSorted, hle, Bool.false_eq_true, if_false]
      rw [List.mem_cons, ih, List.mem_cons]
      tauto

lemma mem_jsSortStrings (x : String) (l : List String) :
    x ∈ jsSortStrings l ↔ x ∈ l := by
  induction l with
  | nil => simp [jsSortStrings]
  | cons y t ih =>
    simp only [jsSortStrings]
    rw [mem_insertSorted, ih, List.mem_cons]

/-- A header occurring on some company and not excluded appears among the
    ordered output headers. -/
lemma mem_orderedHeadersOf (companies : List Row) (h : String)
    (hin : h ∈ allHeadersOf companies) (hex : h ∉ excludeColumns) :
    h ∈ orderedHeadersOf companies := by
  unfold orderedHeadersOf
  by_cases hp : h ∈ priorityColumns
  · apply List.mem_append_left
    refine List.mem_filter.mpr ⟨hp, ?_⟩
    simpa [List.contains, List.elem_iff] using hin
  · apply List.mem_append_right
    rw [mem_jsSortStrings]
    refine List.mem_filter.mpr ⟨List.mem_filter.mpr ⟨hin, ?_⟩, ?_⟩
    · simpa [List.contains, List.elem_iff] using hp
    · simpa [List.contains, List.elem_iff] using hex

/-- Claim C8, counterexample: an input column named `linkedin_original` —
    which is not one of the spec's enumerated logical columns — is silently
    dropped by `generateCSV`, so not every non-logical input column passes
    through. -/
theorem c8_counterexample_linkedin_original_dropped :
    "linkedin_original" ∉ priorityColumns ∧
    orderedHeadersOf
      [[("name", CsvValue.vStr "Acme"), ("linkedin_original", CsvValue.vStr "x")]] =
      ["name"] ∧
    "linkedin_original" ∉ orderedHeadersOf
      [[("name", CsvValue.vStr "Acme"), ("linkedin_original", CsvValue.vStr "x")]] := by
  refine ⟨by decide, by decide, by decide⟩

/-- Claim C8, amended: every column present on some company that is not one
    of the five excluded LinkedIn-alias/internal columns appears among the
    output headers, and its serialized cell in that company's row is the
    stored string unchanged (when no CSV escaping applies); the known
    (priority) columns come first in a fixed preferred order. -/
theorem c8_amended_unknown_columns_pass_through (companies : List Row) (r : Row)
    (hr : r ∈ companies) (h s : String)
    (hl : jsLookup r h = CsvValue.vStr s) (hex : h ∉ excludeColumns)
    (hesc : needsEscape s = false) :
    h ∈ orderedHeadersOf companies ∧
    (csvCellsFor companies r).get? ((orderedHeadersOf companies).indexOf h) =
      some s := by
  have hfind : ∃ kv, r.find? (fun kv => kv.1 = h) = some kv ∧
      kv.2 = CsvValue.vStr s := by
    unfold jsLookup at hl
    cases hfd : r.find? fun kv => kv.1 = h with
    | none => rw [hfd] at hl; cases hl
    | some kv => rw [hfd] at hl; exact ⟨kv, rfl, hl⟩
  rcases hfind with ⟨kv, hfd, hkv2⟩
  have hmem : kv ∈ r := List.mem_of_find?_eq_some hfd
  have hk1 : kv.1 = h := by simpa using List.find?_some hfd
  have hpair : (h, CsvValue.vStr s) ∈ r := by
    have : kv = (h, CsvValue.vStr s) := by
      cases kv; simp_all
    rwa [this] at hmem
  have hall : h ∈ allHeadersOf companies :=
    mem_allHeadersOf h (CsvValue.vStr s) r companies hr hpair
  have hord := mem_orderedHeadersOf companies h hall hex
  refine ⟨hord, ?_⟩
  unfold csvCellsFor
  rw [List.get?_map, List.indexOf_get? hord]
  show some (serializeValue (jsLookup r h)) = some s
  rw [hl]
  show some (csvEscape s) = some s
  rw [csvEscape, if_neg (by simp [hesc])]

/-- Witness for C8: a custom input column survives to the headers and its
    value is reproduced verbatim in the row cells. -/
theorem c8_amended_pass_through_witness :
    "custom_col" ∈ orderedHeadersOf
      [[("name", CsvValue.vStr "Acme"), ("custom_col", CsvValue.vStr "hello")]] ∧
    (csvCellsFor
      [[("name", CsvValue.vStr "Acme"), ("custom_col", CsvValue.vStr "hello")]]
      [("name", CsvValue.vStr "Acme"), ("custom_col", CsvValue.vStr "hello")]).get?
      ((orderedHeadersOf
        [[("name", CsvValue.vStr "Acme"), ("custom_col", CsvValue.vStr "hello")]]).indexOf
        "custom_col") = some "hello" :=
  c8_amended_unknown_columns_pass_through
    [[("name", CsvValue.vStr "Acme"), ("custom_col", CsvValue.vStr "hello")]]
    [("name", CsvValue.vStr "Acme"), ("custom_col", CsvValue.vStr "hello")]
    (by decide) "custom_col" "hello" (by decide) (by decide) (by decide)

/-- Claim C3, counterexample: a single input company whose employee count is
    outside the target window is removed by the employee-filter stage, and
    the final CSV then has no row at all for it (the consolidator even
    degenerates to `'No data'`), so the output does not contain one row per
    input company. -/
theorem c3_counterexample_filtered_company_has_no_row :
    employeeStage 11 200 (fun _ => Except.ok { employeeCount := some 5 })
      [{ name := "Acme" }] = [] ∧
    csvRowsOf ((employeeStage 11 200 (fun _ => Except.ok { employeeCount := some 5 })
      [{ name := "Acme" }]).map toRow) = [] ∧
    generateCSV ((employeeStage 11 200 (fun _ => Except.ok { employeeCount := some 5 })
      [{ name := "Acme" }]).map toRow) = "No data" ∧
    ([{ name := "Acme" }] : List Company).length = 1 := by
  refine ⟨by decide, by decide, by decide, by decide⟩

/-- Claim C3, amended: the final CSV contains exactly one row for every
    company that survives the employee-filter stage, and every surviving
    company is an input company whose filter verdict was positive;
    companies filtered out there have no row. -/
theorem c3_amended_one_row_per_surviving_company (lo hi : Int)
    (env : Company → Except String EmployeeApiData) (companies : List Company) :
    (csvRowsOf ((employeeStage lo hi env companies).map toRow)).length =
      (employeeStage lo hi env companies).length ∧
    ∀ x ∈ employeeStage lo hi env companies, ∃ c ∈ companies,
      x = (employeeStep lo hi (env c) c).1 ∧
        (employeeStep lo hi (env c) c).2 = true := by
  constructor
  · unfold csvRowsOf
    rw [List.length_map, List.length_map]
  · intro x hx
    unfold employeeStage at hx
    rcases List.mem_map.mp hx with ⟨y, hy, rfl⟩
    have h2 := List.mem_filter.mp hy
    rcases List.mem_map.mp h2.1 with ⟨c, hc, rfl⟩
    exact ⟨c, hc, rfl, by simpa using h2.2⟩

/-- Witness for C3 (amended): a kept in-range company yields its row, and it
    traces back to an input company with a positive filter verdict. -/
theorem c3_amended_one_row_per_surviving_company_witness :
    (csvRowsOf ((employeeStage 11 200
      (fun _ => Except.ok { employeeCount := some 45 })
      [{ name := "Keep" }]).map toRow)).length =
      (employeeStage 11 200 (fun _ => Except.ok { employeeCount := some 45 })
        [{ name := "Keep" }]).length ∧
    (∃ c ∈ ([{ name := "Keep" }] : List Company),
      (employeeStep 11 200 (Except.ok { employeeCount := some 45 })
        { name := "Keep" }).1 =
        (employeeStep 11 200
          ((fun _ => Except.ok { employeeCount := some 45 }) c) c).1 ∧
      (employeeStep 11 200
        ((fun _ => Except.ok { employeeCount := some 45 }) c) c).2 = true) :=
  ⟨(c3_amended_one_row_per_surviving_company 11 200
      (fun _ => Except.ok { employeeCount := some 45 }) [{ name := "Keep" }]).1,
   (c3_amended_one_row_per_surviving_company 11 200
      (fun _ => Except.ok { employeeCount := some 45 }) [{ name := "Keep" }]).2
     ((employeeStep 11 200 (Except.ok { employeeCount := some 45 })
        { name := "Keep" }).1)
     (by decide)⟩
